import Mathlib

/-!
Verification of the OpenCloudAndroid streaming client core against its
natural-language specification.

The development shallowly embeds the TypeScript sources:

* `app-src/platform/gfn/cloudmatch.ts` — session orchestrator
  (signaling-address resolution, `pollSessionWeb`, `claimSessionWeb`,
  `getActiveSessionsWeb`);
* the authentication service (`AndroidAuthService`) — token refresh,
  `ensureValidSessionWithStatus`, the refresh lock;
* `app-src/platform/gfn/signaling.ts` — `BrowserSignalingClient.handleMessage`.

Network and JSON-parse effects are passed in explicitly (a fetch outcome is a
constructor of an environment type; a parsed body is a structure), so every
definition is executable and mirrors the control flow of the source line by
line.  JavaScript `string | string[]` fields are embedded as `StrOrArr`,
optional fields as `Option`, and JS truthiness tests are spelled out where the
source relies on them.
-/

deriving instance DecidableEq for Except

namespace OpenCloud

/-! ### JavaScript string primitives

The source manipulates strings with `startsWith`, `slice`, `split`,
`includes` and template concatenation.  These are embedded as executable
functions on the character list of a `String`, mirroring the JavaScript
semantics (all strings involved are ASCII, so UTF-16 indexing and character
indexing agree). -/

/-- JS `s.startsWith(p)`. -/
def jsStartsWith (s p : String) : Bool :=
  p.data.isPrefixOf s.data

/-- JS `s.slice(n)` — drop the first `n` characters. -/
def jsDrop (s : String) (n : Nat) : String :=
  String.mk (s.data.drop n)

/-- Helper for `jsSplitChar`: split a character list at every occurrence of
`c`. -/
def jsSplitCharAux (c : Char) : List Char → List Char → List String
  | [], acc => [String.mk acc.reverse]
  | ch :: rest, acc =>
    if ch = c then String.mk acc.reverse :: jsSplitCharAux c rest []
    else jsSplitCharAux c rest (ch :: acc)

/-- JS `s.split(c)` for a one-character separator: the resulting list is never
empty, and its head is the (possibly empty) prefix before the first `c`. -/
def jsSplitChar (c : Char) (s : String) : List String :=
  jsSplitCharAux c s.data []

/-- JS `s.includes(c)` for a one-character needle. -/
def jsIncludesChar (s : String) (c : Char) : Bool :=
  s.data.contains c

/-- A JSON value that the source types as `string | string[]`. -/
inductive StrOrArr where
  | str (s : String)
  | arr (xs : List String)
deriving Repr, DecidableEq

/-- JS truthiness of an optional `string | string[]` value: `undefined` and the
empty string are falsy, any array (even empty) is truthy. -/
def ipTruthy : Option StrOrArr → Bool
  | none => false
  | some (.str s) => s ≠ ""
  | some (.arr _) => true

/-- JS `Array.isArray(rawIp) ? rawIp[0] : rawIp` — first element of an array, or
the string itself; `none` when absent or the array is empty. -/
def firstIp : Option StrOrArr → Option String
  | none => none
  | some (.str s) => some s
  | some (.arr xs) => xs.head?

/-- Raw ICE server entry as delivered by the CloudMatch response. -/
structure RawIceEntry where
  urls : StrOrArr
  username : Option String
  credential : Option String
deriving Repr, DecidableEq

/-- Normalized ICE server (`IceServer` in `@shared/gfn`). -/
structure IceServer where
  urls : List String
  username : Option String
  credential : Option String
deriving Repr, DecidableEq

/-- Field `session.iceServerConfiguration` of a CloudMatch response. -/
structure IceServerConfiguration where
  iceServers : Option (List RawIceEntry)
deriving Repr, DecidableEq

/-- One entry of `session.connectionInfo` (usage 14 = signaling, 6 = media). -/
structure ConnectionInfo where
  usage : Int
  ip : Option StrOrArr
  port : Int
  resourcePath : Option String
deriving Repr, DecidableEq

/-- Field `session.sessionControlInfo`. -/
structure SessionControlInfo where
  ip : Option StrOrArr
deriving Repr, DecidableEq

/-- The `session` object of a CloudMatch response. -/
structure CMSession where
  sessionId : String
  status : Int
  gpuType : Option String
  queuePosition : Option Int
  connectionInfo : Option (List ConnectionInfo)
  sessionControlInfo : Option SessionControlInfo
  iceServerConfiguration : Option IceServerConfiguration
deriving Repr, DecidableEq

/-- Field `requestStatus` of a CloudMatch response; `statusCode` may be absent. -/
structure RequestStatus where
  statusCode : Option Int
deriving Repr, DecidableEq

/-- A parsed CloudMatch response body. -/
structure CloudMatchResponse where
  requestStatus : RequestStatus
  session : CMSession
deriving Repr, DecidableEq

/-- Embedding of `normalizeIceServers` from `cloudmatch.ts`: wrap scalar `urls` into a list,
drop entries with no urls, and fall back to two fixed public STUN servers when
nothing usable remains. -/
def normalizeIceServers (r : CloudMatchResponse) : List IceServer :=
  let raw := (r.session.iceServerConfiguration.bind (·.iceServers)).getD []
  let servers :=
    (raw.map (fun e =>
      IceServer.mk
        (match e.urls with | .str s => [s] | .arr xs => xs)
        e.username e.credential)).filter (fun e => e.urls.length > 0)
  if servers.length > 0 then servers
  else
    [ ⟨["stun:s1.stun.gamestream.nvidia.com:19308"], none, none⟩,
      ⟨["stun:stun.l.google.com:19302", "stun:stun1.l.google.com:19302"], none, none⟩ ]

/-- Embedding of `extractHostFromUrl` from `cloudmatch.ts`: strip the first matching scheme
prefix and take the substring up to the next `:` or `/`; reject an empty host
or one that starts with a dot. -/
def extractHostFromUrl (url : String) : Option String :=
  match ["rtsps://", "rtsp://", "wss://", "https://"].find? (fun p => jsStartsWith url p) with
  | none => none
  | some pre =>
    let afterProto := jsDrop url pre.length
    let host := (jsSplitChar '/' ((jsSplitChar ':' afterProto).headD "")).headD ""
    if host ≠ "" ∧ ¬ jsStartsWith host "." then some host else none

/-- Result of `buildSignalingUrl` in `cloudmatch.ts`. -/
structure SignalingUrlResult where
  signalingUrl : String
  signalingHost : Option String
deriving Repr, DecidableEq

/-- Embedding of `buildSignalingUrl` from `cloudmatch.ts`.  Note the fall-through: an
`rtsps://`/`rtsp://` path whose host cannot be extracted continues to the
later branches (ending at the default). -/
def buildSignalingUrl (resourcePath serverIp : String) : SignalingUrlResult :=
  let fromScheme : Option SignalingUrlResult :=
    if jsStartsWith resourcePath "rtsps://" || jsStartsWith resourcePath "rtsp://" then
      (extractHostFromUrl resourcePath).map
        (fun host => ⟨"wss://" ++ host ++ "/nvst/", some host⟩)
    else none
  match fromScheme with
  | some r => r
  | none =>
    if jsStartsWith resourcePath "wss://" then ⟨resourcePath, none⟩
    else if jsStartsWith resourcePath "/" then
      ⟨"wss://" ++ serverIp ++ ":443" ++ resourcePath, none⟩
    else ⟨"wss://" ++ serverIp ++ ":443/nvst/", none⟩

/-- Embedding of `streamingServerIp` from `cloudmatch.ts`: prefer a direct non-empty ip of
the usage-14 connection, else a host extracted from its resource path, else
the session-control ip (whose first array element is returned even if empty,
as in the source). -/
def streamingServerIp (r : CloudMatchResponse) : Option String :=
  let connections := r.session.connectionInfo.getD []
  let fromSig : Option String :=
    match connections.find? (fun c => c.usage == 14) with
    | none => none
    | some sigConn =>
      match firstIp sigConn.ip with
      | some s => if s ≠ "" then some s else sigConn.resourcePath.bind extractHostFromUrl
      | none => sigConn.resourcePath.bind extractHostFromUrl
  match fromSig with
  | some h => some h
  | none =>
    match r.session.sessionControlInfo.bind (·.ip) with
    | some (.str s) => if s.length > 0 then some s else none
    | some (.arr xs) => if xs.length > 0 then xs.head? else none
    | none => none

/-- The media connection record resolved by `resolveMediaConnectionInfo`. -/
structure MediaConn where
  ip : String
  port : Int
deriving Repr, DecidableEq

/-- Embedding of `resolveMediaConnectionInfo` from `cloudmatch.ts` (the `serverIp` argument
is accepted but unused, as in the source). -/
def resolveMediaConnectionInfo (connections : List ConnectionInfo) (_serverIp : String) :
    Option MediaConn :=
  match connections.find? (fun c => c.usage == 6) with
  | none => none
  | some mediaConn =>
    if ipTruthy mediaConn.ip then
      some ⟨(match mediaConn.ip with
             | some (.str s) => s
             | some (.arr xs) => xs.headD ""
             | none => ""), mediaConn.port⟩
    else none

/-- The record produced by a successful `resolveSignaling`. -/
structure SignalingInfo where
  serverIp : String
  signalingServer : String
  signalingUrl : String
  mediaConnectionInfo : Option MediaConn
deriving Repr, DecidableEq

/-- Embedding of `resolveSignaling` from `cloudmatch.ts`; the thrown `Error` becomes
`Except.error`.  The emptiness test on `serverIp` reproduces the JS falsiness
of `""` in `if (!serverIp) throw ...`. -/
def resolveSignaling (r : CloudMatchResponse) : Except String SignalingInfo :=
  let connections := r.session.connectionInfo.getD []
  let signalingConnection :=
    match connections.find? (fun c => c.usage == 14 && ipTruthy c.ip) with
    | some c => some c
    | none => connections.find? (fun c => ipTruthy c.ip)
  match streamingServerIp r with
  | none => Except.error "CloudMatch response did not include a signaling host"
  | some serverIp =>
    if serverIp = "" then Except.error "CloudMatch response did not include a signaling host"
    else
      let resourcePath := (signalingConnection.bind (·.resourcePath)).getD "/nvst/"
      let u := buildSignalingUrl resourcePath serverIp
      let effectiveHost := u.signalingHost.getD serverIp
      let signalingServer :=
        if jsIncludesChar effectiveHost ':' then effectiveHost else effectiveHost ++ ":443"
      Except.ok ⟨serverIp, signalingServer, u.signalingUrl,
                 resolveMediaConnectionInfo connections serverIp⟩

/-- The `SessionInfo` record returned by the session orchestrator
(`SessionInfo` in `@shared/gfn`; fields not set by a code path are `none` /
`""` exactly as in the TS object literals). -/
structure SessionInfo where
  sessionId : String
  status : Int
  zone : String
  streamingBaseUrl : String
  serverIp : String
  signalingServer : String
  signalingUrl : String
  gpuType : Option String
  queuePosition : Option Int
  iceServers : List IceServer
  mediaConnectionInfo : Option MediaConn
deriving Repr, DecidableEq

/-- The fatal-request-status test of `pollSessionWeb`:
`statusCode !== 0 && statusCode !== undefined` and then `statusCode >= 2`. -/
def requestStatusFatal : Option Int → Bool
  | none => false
  | some c => c ≠ 0 && 2 ≤ c

/-- Embedding of `pollSessionWeb` from `cloudmatch.ts`, after a successful HTTP GET whose
body parsed to `d`.  `serverIpIn` is the caller-supplied `input.serverIp`;
`zone` the caller-supplied zone.  A thrown `SessionError` becomes
`Except.error`; the swallowed `resolveSignaling` failure (`try ... catch`)
becomes `Except.toOption`. -/
def pollSessionWeb (serverIpIn : Option String) (zone base : String)
    (d : CloudMatchResponse) : Except String SessionInfo :=
  if requestStatusFatal d.requestStatus.statusCode then
    Except.error "SessionError"
  else
    let sessionStatus := d.session.status
    let signaling : Option SignalingInfo :=
      if sessionStatus = 2 ∨ sessionStatus = 3 then (resolveSignaling d).toOption else none
    Except.ok
      { sessionId := d.session.sessionId
        status := sessionStatus
        zone := zone
        streamingBaseUrl := base
        serverIp := (signaling.map (·.serverIp)).getD (serverIpIn.getD "")
        signalingServer := (signaling.map (·.signalingServer)).getD ""
        signalingUrl := (signaling.map (·.signalingUrl)).getD ""
        gpuType := d.session.gpuType
        queuePosition := d.session.queuePosition
        iceServers := normalizeIceServers d
        mediaConnectionInfo := signaling.bind (·.mediaConnectionInfo) }

/-- Outcome of one `fetch` of the claim loop: either a non-2xx response
(`response.ok` false) or a 2xx response with parsed body `d`. -/
inductive FetchOutcome where
  | httpNotOk
  | okBody (d : CloudMatchResponse)
deriving Repr, DecidableEq

/-- Result of `claimSessionWeb`: a returned `SessionInfo`, a propagated
`resolveSignaling` failure, or the final
`Error("Session did not become ready after claiming")` (reached both by
exhausting the attempts and by the early `break`). -/
inductive ClaimResult where
  | success (info : SessionInfo)
  | resolutionError (e : String)
  | exhausted
deriving Repr, DecidableEq

/-- The `SessionInfo` literal returned by `claimSessionWeb` on a ready
session. -/
def claimSuccessInfo (base : String) (d : CloudMatchResponse) (sig : SignalingInfo) :
    SessionInfo :=
  { sessionId := d.session.sessionId
    status := d.session.status
    zone := ""
    streamingBaseUrl := base
    serverIp := sig.serverIp
    signalingServer := sig.signalingServer
    signalingUrl := sig.signalingUrl
    gpuType := d.session.gpuType
    queuePosition := none
    iceServers := normalizeIceServers d
    mediaConnectionInfo := sig.mediaConnectionInfo }

/-- The body of the `for (let attempt = 0; attempt < 15; attempt++)` loop of
`claimSessionWeb`, with the remaining iterations as structural fuel
(`fuel = 15 - attempt` at every call).  `env attempt` is the outcome of the
GET of that attempt.  Besides the result, the model counts the number of GET
requests issued and the number of 2-second sleeps performed (a sleep happens
at the top of every iteration with `attempt > 0`). -/
def claimGo (env : Nat → FetchOutcome) (base : String) :
    Nat → Nat → ClaimResult × Nat × Nat
  | 0, _ => (.exhausted, 0, 0)
  | fuel + 1, attempt =>
    let sleepHere : Nat := if attempt = 0 then 0 else 1
    match env attempt with
    | .httpNotOk =>
      let prev := claimGo env base fuel (attempt + 1)
      (prev.1, prev.2.1 + 1, prev.2.2 + sleepHere)
    | .okBody d =>
      if d.session.status = 2 ∨ d.session.status = 3 then
        match resolveSignaling d with
        | .ok sig => (.success (claimSuccessInfo base d sig), 1, sleepHere)
        | .error e => (.resolutionError e, 1, sleepHere)
      else if d.session.status = 6 then
        let prev := claimGo env base fuel (attempt + 1)
        (prev.1, prev.2.1 + 1, prev.2.2 + sleepHere)
      else (.exhausted, 1, sleepHere)

/-- Embedding of `claimSessionWeb` from `cloudmatch.ts`: the loop starting at attempt 0
with 15 iterations available. -/
def claimSessionWeb (env : Nat → FetchOutcome) (base : String) :
    ClaimResult × Nat × Nat :=
  claimGo env base 15 0

/-- One active-session entry of a `GET /v2/session` body. -/
structure RawActiveSession where
  sessionId : String
  status : Int
  gpuType : Option String
  appId : Option String
  controlIp : Option String
deriving Repr, DecidableEq

/-- Parsed body of the active-session list response. -/
structure GetSessionsResponse where
  sessions : Option (List RawActiveSession)
deriving Repr, DecidableEq

/-- Structure `ActiveSessionInfo` in `@shared/gfn`. -/
structure ActiveSessionInfo where
  sessionId : String
  status : Int
  gpuType : Option String
  appId : Int
  serverIp : Option String
deriving Repr, DecidableEq

/-- JS `parseInt(s, 10)`: optional sign followed by the maximal decimal-digit
prefix; `none` for `NaN` (no digits). Leading whitespace does not occur in the
inputs of interest. -/
def jsParseInt10 (s : String) : Option Int :=
  let (sign, digits) : Int × List Char :=
    match s.data with
    | '-' :: rest => (-1, rest)
    | '+' :: rest => (1, rest)
    | cs => (1, cs)
  let ds := digits.takeWhile (·.isDigit)
  if ds.isEmpty then none
  else some (sign * (ds.foldl (fun acc c => acc * 10 + (c.toNat - 48)) 0 : Nat))

/-- Outcome of a `fetch` whose body may additionally fail to parse as JSON:
`netError` models a rejected `fetch(...)` promise, `resp ok body` a received
response (`body = none` models `response.json()` throwing). -/
inductive FetchResult (α : Type) where
  | netError (msg : String)
  | resp (ok : Bool) (body : Option α)
deriving Repr, DecidableEq

/-- Embedding of `getActiveSessionsWeb` from `cloudmatch.ts`.  The function has no
`try`/`catch`: only a received non-2xx response maps to `[]`; a rejected
`fetch` or a `response.json()` failure propagates (`Except.error`). -/
def getActiveSessionsWeb (fetch : FetchResult GetSessionsResponse) :
    Except String (List ActiveSessionInfo) :=
  match fetch with
  | .netError e => Except.error e
  | .resp ok body =>
    if !ok then Except.ok []
    else
      match body with
      | none => Except.error "response.json() failed"
      | some data =>
        Except.ok ((data.sessions.getD []).map (fun s =>
          { sessionId := s.sessionId
            status := s.status
            gpuType := s.gpuType
            appId := ((jsParseInt10 (s.appId.getD "0")).getD 0 : Int)
            serverIp := s.controlIp }))

/-! ### Token authority (`AndroidAuthService`)

Times are absolute milliseconds (`Date.now()`), passed explicitly as `now`.
Network effects of the token endpoint are passed in as `RefreshHttp` values;
the userinfo fetch and the best-effort tier enrichment of a refresh are
likewise explicit parameters. -/

/-- Structure `AuthTokens` from `@shared/gfn`: `expiresAt` is a required field, set by
every constructor in the source. -/
structure AuthTokens where
  accessToken : String
  refreshToken : Option String
  idToken : Option String
  expiresAt : Int
deriving Repr, DecidableEq

/-- Structure `AuthUser` (only the fields the modelled paths touch). -/
structure AuthUser where
  userId : String
  displayName : String
  membershipTier : String
deriving Repr, DecidableEq

/-- Structure `AuthSession`: the provider is opaque to the refresh paths and embedded as
a plain string identifier. -/
structure AuthSession where
  provider : String
  tokens : AuthTokens
  user : AuthUser
deriving Repr, DecidableEq

/-- Body of a token-endpoint response (`TokenResponse` in the source). -/
structure TokenResponse where
  access_token : String
  refresh_token : Option String
  id_token : Option String
  expires_in : Option Int
deriving Repr, DecidableEq

/-- Outcome of one POST to the token endpoint: an unsuccessful exchange
(rejected fetch or non-2xx response, which the source turns into a thrown
`Error`) or a 2xx response with parsed body. -/
inductive RefreshHttp where
  | failure (msg : String)
  | success (payload : TokenResponse)
deriving Repr, DecidableEq

/-- Embedding of `refreshAuthTokens` (primary `refresh_token` grant): on a 2xx response
with a non-empty `access_token`, builds the new token set; `expires_in`
defaults to 86400 seconds and the refresh token is kept when the response
carries none. -/
def refreshAuthTokens (now : Int) (refreshToken : String) (h : RefreshHttp) :
    Except String AuthTokens :=
  match h with
  | .failure m => Except.error ("Token refresh failed: " ++ m)
  | .success p =>
    if p.access_token = "" then Except.error "Token refresh returned empty access_token"
    else Except.ok
      { accessToken := p.access_token
        refreshToken := some (p.refresh_token.getD refreshToken)
        idToken := p.id_token
        expiresAt := now + (p.expires_in.getD 86400) * 1000 }

/-- Embedding of `refreshViaClientToken` (secondary token-exchange grant): same response
handling as the primary grant. -/
def refreshViaClientToken (now : Int) (refreshToken : String) (h : RefreshHttp) :
    Except String AuthTokens :=
  match h with
  | .failure m => Except.error ("client_token refresh failed: " ++ m)
  | .success p =>
    if p.access_token = "" then Except.error "client_token refresh returned empty access_token"
    else Except.ok
      { accessToken := p.access_token
        refreshToken := some (p.refresh_token.getD refreshToken)
        idToken := p.id_token
        expiresAt := now + (p.expires_in.getD 86400) * 1000 }

/-- Embedding of `exchangeAuthorizationCode` (login): token construction from a successful
authorization-code exchange. -/
def exchangeAuthorizationCode (now : Int) (h : RefreshHttp) : Except String AuthTokens :=
  match h with
  | .failure m => Except.error ("Token exchange failed: " ++ m)
  | .success p =>
    Except.ok
      { accessToken := p.access_token
        refreshToken := p.refresh_token
        idToken := p.id_token
        expiresAt := now + (p.expires_in.getD 86400) * 1000 }

/-- The network environment of one refresh attempt: the outcome the token
endpoint would give the primary grant and the one it would give the secondary
grant. -/
structure GrantEnv where
  primary : RefreshHttp
  secondary : RefreshHttp
deriving Repr, DecidableEq

/-- The grant types a refresh attempt can issue. -/
inductive GrantKind where
  | refreshTokenGrant
  | tokenExchangeGrant
deriving Repr, DecidableEq

/-- Embedding of `AndroidAuthService.performTokenRefresh`: try the primary grant, fall back
to the token-exchange grant, return `none` when both fail.  The guard
`if (!this.session?.tokens.refreshToken) return null` is JS-falsy, so both an
absent and an *empty* refresh token return `null` without issuing any grant.
The second component records, in order, the grants actually issued together
with the refresh token each one used. -/
def performTokenRefresh (now : Int) (sessionRefreshToken : Option String)
    (env : GrantEnv) : Option AuthTokens × List (GrantKind × String) :=
  match sessionRefreshToken with
  | none => (none, [])
  | some rt =>
    if rt = "" then (none, [])
    else
      match refreshAuthTokens now rt env.primary with
      | .ok t => (some t, [(.refreshTokenGrant, rt)])
      | .error _ =>
        match refreshViaClientToken now rt env.secondary with
        | .ok t => (some t, [(.refreshTokenGrant, rt), (.tokenExchangeGrant, rt)])
        | .error _ => (none, [(.refreshTokenGrant, rt), (.tokenExchangeGrant, rt)])

/-- Embedding of `AndroidAuthService.shouldRefresh`:
`tokens.expiresAt - Date.now() < 10 * 60 * 1000`. -/
def shouldRefresh (now : Int) (tokens : AuthTokens) : Bool :=
  tokens.expiresAt - now < 10 * 60 * 1000

/-- The `outcome` field of `AuthSessionResult.refresh`. -/
inductive RefreshOutcome where
  | not_attempted
  | missing_refresh_token
  | refreshed
  | failed
deriving Repr, DecidableEq

/-- The observable result of `ensureValidSessionWithStatus`:
the returned session and refresh-status fields, plus whether the call entered
`lockedRefresh` (used to state the decision table). -/
structure EnsureResult where
  session : Option AuthSession
  attempted : Bool
  forced : Bool
  outcome : RefreshOutcome
  didLockedRefresh : Bool
deriving Repr, DecidableEq

/-- Embedding of `AndroidAuthService.ensureValidSessionWithStatus`.

`session` is the cached `this.session`; `refreshEnv` the token-endpoint
environment seen by `performTokenRefresh` (reached through `lockedRefresh`);
`userEnv` the outcome of the `fetchUserInfo` call on the refreshed tokens
(`Except.error` models a throw, which the surrounding `catch` turns into
outcome `failed` with the session left unchanged); `tierEnv` the best-effort
subscription tier applied by `enrichUserTier` when its lookup succeeds. -/
def ensureValidSessionWithStatus (forceRefresh : Bool) (now : Int)
    (session : Option AuthSession) (refreshEnv : GrantEnv)
    (userEnv : Except String AuthUser) (tierEnv : Option String) : EnsureResult :=
  match session with
  | none => ⟨none, false, forceRefresh, .not_attempted, false⟩
  | some s =>
    if ¬ forceRefresh ∧ ¬ shouldRefresh now s.tokens then
      ⟨some s, false, false, .not_attempted, false⟩
    else
      -- `if (!tokens.refreshToken)` is JS-falsy: an absent and an empty
      -- refresh token both report `missing_refresh_token`.
      match s.tokens.refreshToken with
      | none => ⟨some s, true, forceRefresh, .missing_refresh_token, false⟩
      | some rt =>
        if rt = "" then ⟨some s, true, forceRefresh, .missing_refresh_token, false⟩
        else
        match (performTokenRefresh now (some rt) refreshEnv).1 with
        | none => ⟨some s, true, forceRefresh, .failed, true⟩
        | some newTokens =>
          match userEnv with
          | .error _ => ⟨some s, true, forceRefresh, .failed, true⟩
          | .ok user =>
            let enriched := match tierEnv with
              | some t => { user with membershipTier := t }
              | none => user
            ⟨some { s with tokens := newTokens, user := enriched },
             true, forceRefresh, .refreshed, true⟩

/-! ### The refresh lock (`lockedRefresh`)

`this.refreshLock` is a nullable promise.  The synchronous prologue of
`lockedRefresh` — test the field, and when it is null store a fresh pending
operation — runs to completion before any other event-loop turn, so a burst
of concurrent callers is a sequence of atomic `lockedRefreshStep`s.  Pending
operations are named by numeric ids; `started` records every underlying
network refresh operation ever started. -/

/-- The refresh-lock state of the service. -/
structure RefreshLockState where
  refreshLock : Option Nat
  nextOpId : Nat
  started : List Nat
deriving Repr, DecidableEq

/-- One call to `lockedRefresh`: reuse the in-flight operation if there is
one, otherwise start (and record) a fresh one.  Returns the operation whose
result this caller will await. -/
def lockedRefreshStep (s : RefreshLockState) : Nat × RefreshLockState :=
  match s.refreshLock with
  | some p => (p, s)
  | none =>
    (s.nextOpId,
     { refreshLock := some s.nextOpId
       nextOpId := s.nextOpId + 1
       started := s.started ++ [s.nextOpId] })

/-- The `.finally(() => { this.refreshLock = null })` of the pending
operation: completion clears the lock. -/
def lockedRefreshComplete (s : RefreshLockState) : RefreshLockState :=
  { s with refreshLock := none }

/-- Runs `n` consecutive calls to `lockedRefresh` (no completion in between):
the list of operations handed to the callers, and the final state. -/
def lockedRefreshCalls : Nat → RefreshLockState → List Nat × RefreshLockState
  | 0, s => ([], s)
  | n + 1, s =>
    let (r, s') := lockedRefreshStep s
    let (rs, s'') := lockedRefreshCalls n s'
    (r :: rs, s'')

/-! ### Signaling channel (`BrowserSignalingClient.handleMessage`)

A frame arrives as text; `JSON.parse` of the outer frame is embedded as an
`Option InSignalingMessage` input (`none` = non-JSON text), and the inner
`JSON.parse` of a relayed `peer_msg.msg` as a decoding environment
`String → Option PeerPayload`.  Outbound `sendJson` calls become `OutFrame`
values and `this.emit` calls become `SigEvent` values, in program order. -/

/-- The `peer_info` object of an inbound frame (identity announce). -/
structure PeerInfo where
  id : Int
deriving Repr, DecidableEq

/-- The `peer_msg` relay envelope of an inbound frame. -/
structure PeerMsg where
  srcPeer : Int
  dstPeer : Int
  msg : String
deriving Repr, DecidableEq

/-- A parsed inbound signaling frame (`SignalingMessage` in the source);
every field is optional on the wire. -/
structure InSignalingMessage where
  ackid : Option Int
  ack : Option Int
  hb : Option Int
  peer_info : Option PeerInfo
  peer_msg : Option PeerMsg
deriving Repr, DecidableEq

/-- An inner relayed payload after the second `JSON.parse`: the fields the
handler inspects, each present only when it has the inspected JS type
(`typeof x === "string"` and so on). -/
structure PeerPayload where
  msgType : Option String
  sdp : Option String
  candidate : Option String
  sdpMid : Option String
  sdpMLineIndex : Option Int
deriving Repr, DecidableEq

/-- A frame written to the socket by the handler. -/
inductive OutFrame where
  | ackFrame (n : Int)
  | hbFrame
deriving Repr, DecidableEq

/-- An event delivered to the registered listeners (`this.emit`). -/
inductive SigEvent where
  | logEvent (message : String)
  | offerEvent (sdp : String)
  | remoteIceEvent (candidate : String) (sdpMid : Option String) (sdpMLineIndex : Option Int)
deriving Repr, DecidableEq

/-- JS truthiness of the optional numeric `hb` field. -/
def hbTruthy : Option Int → Bool
  | none => false
  | some n => n ≠ 0

/-- The part of `handleMessage` after the acknowledgment block: heartbeat
echo, then the relayed-payload decode.  Unrecognised inner payloads only hit
`console.log`, so they emit nothing. -/
def handleMessageRest (parsed : InSignalingMessage)
    (decodeInner : String → Option PeerPayload) : List OutFrame × List SigEvent :=
  if hbTruthy parsed.hb then ([.hbFrame], [])
  else
    match parsed.peer_msg with
    | none => ([], [])
    | some pm =>
      if pm.msg = "" then ([], [])
      else
        match decodeInner pm.msg with
        | none => ([], [.logEvent "Non-JSON peer payload"])
        | some p =>
          match p.msgType, p.sdp with
          | some "offer", some sdp => ([], [.offerEvent sdp])
          | _, _ =>
            match p.candidate with
            | some c => ([], [.remoteIceEvent c p.sdpMid p.sdpMLineIndex])
            | none => ([], [])

/-- Embedding of `BrowserSignalingClient.handleMessage`.  `peerId` is `this.peerId`;
`outer` the outer `JSON.parse` result; `decodeInner` the inner `JSON.parse`.
An ack is sent exactly when a numeric `ackid` is present and
`parsed.peer_info?.id !== this.peerId` (an absent `peer_info` compares
unequal). -/
def handleMessage (peerId : Int) (outer : Option InSignalingMessage)
    (decodeInner : String → Option PeerPayload) : List OutFrame × List SigEvent :=
  match outer with
  | none => ([], [.logEvent "Ignoring non-JSON"])
  | some parsed =>
    let ackFrames : List OutFrame :=
      match parsed.ackid with
      | some n =>
        if parsed.peer_info.map (·.id) ≠ some peerId then [.ackFrame n] else []
      | none => []
    let rest := handleMessageRest parsed decodeInner
    (ackFrames ++ rest.1, rest.2)

/-- Whether a sent frame is an acknowledgment frame. -/
def isAckFrame : OutFrame → Bool
  | .ackFrame _ => true
  | .hbFrame => false

/-! ### Helper lemmas -/

/-- A concatenation whose left part is nonempty is nonempty. -/
theorem append_ne_empty_left (a b : String) (ha : a ≠ "") : a ++ b ≠ "" := by
  intro h
  apply ha
  have hd : a.data ++ b.data = List.nil := by
    have h2 := congrArg String.data h
    rwa [String.data_append] at h2
  exact String.ext (List.append_eq_nil.mp hd).1

/-- If a character list starting with `a` is a prefix of `l`, then `l` starts
with `a`. -/
theorem head_of_isPrefixOf (a : Char) (as l : List Char)
    (h : (a :: as).isPrefixOf l = true) : l.head? = some a := by
  cases l with
  | nil => simp [List.isPrefixOf] at h
  | cons b bs =>
    simp only [List.isPrefixOf, Bool.and_eq_true, beq_iff_eq] at h
    rw [h.1]
    rfl

/-- Lists with different heads are not prefixes of one another. -/
theorem isPrefixOf_false_of_head_ne (a b : Char) (as bs : List Char)
    (hne : (a == b) = false) : (a :: as).isPrefixOf (b :: bs) = false := by
  simp [List.isPrefixOf, hne]

/-- A path carrying an `rtsps://` or `rtsp://` scheme starts with `r`, hence
matches neither the `wss://` nor the absolute-path branch of
`buildSignalingUrl`. -/
theorem scheme_excludes_wss_slash (s : String)
    (h : (jsStartsWith s "rtsps://" || jsStartsWith s "rtsp://") = true) :
    jsStartsWith s "wss://" = false ∧ jsStartsWith s "/" = false := by
  obtain ⟨l⟩ := s
  simp only [Bool.or_eq_true] at h
  have hd : l.head? = some 'r' := by
    rcases h with h1 | h1
    · exact head_of_isPrefixOf 'r' "tsps://".data l h1
    · exact head_of_isPrefixOf 'r' "tsp://".data l h1
  cases l with
  | nil => simp at hd
  | cons c cs =>
    have hc : c = 'r' := by simpa using hd
    subst hc
    exact ⟨isPrefixOf_false_of_head_ne 'w' 'r' "ss://".data cs (by decide),
           isPrefixOf_false_of_head_ne '/' 'r' ([] : List Char) cs (by decide)⟩

/-- The URL built by `buildSignalingUrl` is never the empty string (each
branch yields either a `wss://`-prefixed concatenation or a path that itself
starts with `wss://`). -/
theorem buildSignalingUrl_ne_empty (rp ip : String) :
    (buildSignalingUrl rp ip).signalingUrl ≠ "" := by
  have hw : ("wss://" : String) ≠ "" := by decide
  unfold buildSignalingUrl
  by_cases hs : (jsStartsWith rp "rtsps://" || jsStartsWith rp "rtsp://") = true
  · cases hh : extractHostFromUrl rp with
    | some host =>
      simp only [hs, if_true, hh, Option.map_some]
      exact append_ne_empty_left _ _ (append_ne_empty_left _ _ hw)
    | none =>
      simp only [hs, if_true, hh, Option.map_none]
      by_cases h1 : jsStartsWith rp "wss://" = true
      · simp only [h1, if_true]
        intro h
        subst h
        simp [jsStartsWith, List.isPrefixOf] at h1
      · simp only [Bool.not_eq_true] at h1
        simp only [h1, Bool.false_eq_true, if_false]
        by_cases h2 : jsStartsWith rp "/" = true
        · simp only [h2, if_true]
          exact append_ne_empty_left _ _ (append_ne_empty_left _ _ (append_ne_empty_left _ _ hw))
        · simp only [Bool.not_eq_true] at h2
          simp only [h2, Bool.false_eq_true, if_false]
          exact append_ne_empty_left _ _ (append_ne_empty_left _ _ hw)
  · simp only [Bool.not_eq_true] at hs
    simp only [hs, Bool.false_eq_true, if_false]
    by_cases h1 : jsStartsWith rp "wss://" = true
    · simp only [h1, if_true]
      intro h
      subst h
      simp [jsStartsWith, List.isPrefixOf] at h1
    · simp only [Bool.not_eq_true] at h1
      simp only [h1, Bool.false_eq_true, if_false]
      by_cases h2 : jsStartsWith rp "/" = true
      · simp only [h2, if_true]
        exact append_ne_empty_left _ _ (append_ne_empty_left _ _ (append_ne_empty_left _ _ hw))
      · simp only [Bool.not_eq_true] at h2
        simp only [h2, Bool.false_eq_true, if_false]
        exact append_ne_empty_left _ _ (append_ne_empty_left _ _ hw)

/-- A successfully resolved signaling record carries the URL built by
`buildSignalingUrl`, which is never empty. -/
theorem resolveSignaling_url_ne_empty (r : CloudMatchResponse) (sig : SignalingInfo)
    (h : resolveSignaling r = Except.ok sig) : sig.signalingUrl ≠ "" := by
  unfold resolveSignaling at h
  cases hip : streamingServerIp r with
  | none => rw [hip] at h; exact absurd h (by simp)
  | some serverIp =>
    rw [hip] at h
    dsimp only at h
    by_cases he : serverIp = ""
    · rw [if_pos he] at h; exact absurd h (by simp)
    · rw [if_neg he] at h
      simp only [Except.ok.injEq] at h
      subst h
      exact buildSignalingUrl_ne_empty _ _

/-! ### Claim C5 — signaling URL construction -/

/-- Claim C5 counterexample.  The claim routes only "secure real-time scheme"
paths to the `wss://<host>/nvst/` form and sends every path that is neither
such a scheme, nor a `wss://` URL, nor absolute, to the default
`wss://<serverIp>:443/nvst/`.  The path `"rtsp://10.0.0.1/x"` is none of the
claim's three special cases (`rtsp://` is the *insecure* scheme), so the claim
predicts `"wss://9.9.9.9:443/nvst/"`; the code instead extracts the host from
the `rtsp://` path and yields `"wss://10.0.0.1/nvst/"`. -/
theorem C5_counterexample :
    jsStartsWith "rtsp://10.0.0.1/x" "rtsps://" = false
  ∧ jsStartsWith "rtsp://10.0.0.1/x" "wss://" = false
  ∧ jsStartsWith "rtsp://10.0.0.1/x" "/" = false
  ∧ (buildSignalingUrl "rtsp://10.0.0.1/x" "9.9.9.9").signalingUrl = "wss://10.0.0.1/nvst/"
  ∧ ("wss://10.0.0.1/nvst/" : String) ≠ "wss://9.9.9.9:443/nvst/" := by
  decide

/-- Claim C5 (amended): for every resource path and server IP, if the path
uses a real-time scheme (`rtsps://` or `rtsp://`) and a host can be extracted
from it, the URL is `wss://<host>/nvst/`; if such a path yields no extractable
host the remaining rules apply (for such a path, the default); a `wss://` path
is used verbatim; an absolute path gives `wss://<serverIp>:443<path>`;
otherwise the default `wss://<serverIp>:443/nvst/`.  In particular
`"rtsps://203.0.113.5:443/session"` resolves to
`"wss://203.0.113.5/nvst/"`. -/
theorem C5_amended (rp ip : String) :
    ((jsStartsWith rp "rtsps://" || jsStartsWith rp "rtsp://") = true →
      (∀ h, extractHostFromUrl rp = some h →
        (buildSignalingUrl rp ip).signalingUrl = "wss://" ++ h ++ "/nvst/")
      ∧ (extractHostFromUrl rp = none →
        (buildSignalingUrl rp ip).signalingUrl = "wss://" ++ ip ++ ":443/nvst/"))
  ∧ ((jsStartsWith rp "rtsps://" || jsStartsWith rp "rtsp://") = false →
      jsStartsWith rp "wss://" = true →
      (buildSignalingUrl rp ip).signalingUrl = rp)
  ∧ ((jsStartsWith rp "rtsps://" || jsStartsWith rp "rtsp://") = false →
      jsStartsWith rp "wss://" = false → jsStartsWith rp "/" = true →
      (buildSignalingUrl rp ip).signalingUrl = "wss://" ++ ip ++ ":443" ++ rp)
  ∧ ((jsStartsWith rp "rtsps://" || jsStartsWith rp "rtsp://") = false →
      jsStartsWith rp "wss://" = false → jsStartsWith rp "/" = false →
      (buildSignalingUrl rp ip).signalingUrl = "wss://" ++ ip ++ ":443/nvst/")
  ∧ (buildSignalingUrl "rtsps://203.0.113.5:443/session" ip).signalingUrl
      = "wss://203.0.113.5/nvst/" := by
  refine ⟨?_, ?_, ?_, ?_, ?_⟩
  · intro hs
    constructor
    · intro h hh
      simp [buildSignalingUrl, hs, hh]
    · intro hh
      obtain ⟨hw, hsl⟩ := scheme_excludes_wss_slash rp hs
      simp [buildSignalingUrl, hs, hh, hw, hsl]
  · intro hs h1
    simp [buildSignalingUrl, hs, h1]
  · intro hs h1 h2
    simp [buildSignalingUrl, hs, h1, h2]
  · intro hs h1 h2
    simp [buildSignalingUrl, hs, h1, h2]
  · have h1 : (jsStartsWith "rtsps://203.0.113.5:443/session" "rtsps://"
        || jsStartsWith "rtsps://203.0.113.5:443/session" "rtsp://") = true := by decide
    have h2 : extractHostFromUrl "rtsps://203.0.113.5:443/session" = some "203.0.113.5" := by
      decide
    simp [buildSignalingUrl, h1, h2]

/-- Claim C5 amended-theorem witness: the amended rules evaluated at the
spec's concrete example. -/
theorem C5_amended_witness :
    (buildSignalingUrl "rtsps://203.0.113.5:443/session" "1.2.3.4").signalingUrl
      = "wss://203.0.113.5/nvst/" :=
  (C5_amended "rtsps://203.0.113.5:443/session" "1.2.3.4").2.2.2.2

/-! ### Claim C4 — pollSession status handling -/

/-- Claim C4: for every `pollSession` call whose HTTP response succeeded,
(1) when the session status is 2 or 3 and the signaling descriptor resolves,
the returned `SessionInfo` has a non-empty `signalingUrl`; (2) for any other
session status the call throws exactly when the response's request-status code
is a defined terminal-failure code (present and ≥ 2, the failure
classification of this call path), and otherwise returns a `SessionInfo` with
empty `signalingUrl`. -/
theorem C4_pollSession (serverIpIn : Option String) (zone base : String)
    (d : CloudMatchResponse) :
    (∀ info sig, pollSessionWeb serverIpIn zone base d = Except.ok info →
        (d.session.status = 2 ∨ d.session.status = 3) →
        resolveSignaling d = Except.ok sig →
        info.signalingUrl ≠ "")
  ∧ (¬ (d.session.status = 2 ∨ d.session.status = 3) →
      (requestStatusFatal d.requestStatus.statusCode = true →
        pollSessionWeb serverIpIn zone base d = Except.error "SessionError")
      ∧ (requestStatusFatal d.requestStatus.statusCode = false →
        ∃ info, pollSessionWeb serverIpIn zone base d = Except.ok info
          ∧ info.signalingUrl = "")) := by
  constructor
  · intro info sig hok hst hsig
    unfold pollSessionWeb at hok
    by_cases hf : requestStatusFatal d.requestStatus.statusCode = true
    · rw [if_pos hf] at hok
      exact absurd hok (by simp)
    · rw [if_neg hf] at hok
      dsimp only at hok
      rw [if_pos hst, hsig] at hok
      simp only [Except.toOption, Option.map_some, Option.getD_some,
        Except.ok.injEq] at hok
      subst hok
      exact resolveSignaling_url_ne_empty d sig hsig
  · intro hst
    constructor
    · intro hf
      unfold pollSessionWeb
      rw [if_pos hf]
    · intro hf
      unfold pollSessionWeb
      rw [if_neg (by simp [hf])]
      dsimp only
      rw [if_neg hst]
      exact ⟨_, rfl, by simp⟩

/-- Concrete ready response for the C4 witness: request status 0, session
status 2, one usage-14 connection with a direct IP. -/
def c4ReadyExample : CloudMatchResponse :=
  { requestStatus := ⟨some 0⟩
    session :=
      { sessionId := "s1", status := 2, gpuType := none, queuePosition := none
        connectionInfo := some [⟨14, some (.str "1.2.3.4"), 443, some "/nvst/"⟩]
        sessionControlInfo := none, iceServerConfiguration := none } }

/-- Concrete queued response for the C4 witness (session status 6). -/
def c4QueuedExample : CloudMatchResponse :=
  { requestStatus := ⟨some 0⟩
    session :=
      { sessionId := "s1", status := 6, gpuType := none, queuePosition := some 3
        connectionInfo := none, sessionControlInfo := none
        iceServerConfiguration := none } }

/-- Concrete failed response for the C4 witness (request status 7). -/
def c4FatalExample : CloudMatchResponse :=
  { requestStatus := ⟨some 7⟩
    session :=
      { sessionId := "s1", status := 1, gpuType := none, queuePosition := none
        connectionInfo := none, sessionControlInfo := none
        iceServerConfiguration := none } }

/-- Claim C4 witness: the three branches of `C4_pollSession` evaluated on
concrete responses. -/
theorem C4_pollSession_witness :
    (∃ info, pollSessionWeb none "" "b" c4ReadyExample = Except.ok info
      ∧ info.signalingUrl ≠ "")
  ∧ (∃ info, pollSessionWeb none "" "b" c4QueuedExample = Except.ok info
      ∧ info.signalingUrl = "")
  ∧ pollSessionWeb none "" "b" c4FatalExample = Except.error "SessionError" := by
  refine ⟨?_, ?_, ?_⟩
  · have hsig : resolveSignaling c4ReadyExample
        = Except.ok ⟨"1.2.3.4", "1.2.3.4:443", "wss://1.2.3.4:443/nvst/", none⟩ := by decide
    have hok : pollSessionWeb none "" "b" c4ReadyExample = Except.ok
        ⟨"s1", 2, "", "b", "1.2.3.4", "1.2.3.4:443", "wss://1.2.3.4:443/nvst/", none, none,
         [⟨["stun:s1.stun.gamestream.nvidia.com:19308"], none, none⟩,
          ⟨["stun:stun.l.google.com:19302", "stun:stun1.l.google.com:19302"], none, none⟩],
         none⟩ := by decide
    exact ⟨_, hok, (C4_pollSession none "" "b" c4ReadyExample).1 _ _ hok (by decide) hsig⟩
  · exact ((C4_pollSession none "" "b" c4QueuedExample).2 (by decide)).2 (by decide)
  · exact ((C4_pollSession none "" "b" c4FatalExample).2 (by decide)).1 (by decide)

/-! ### Claim C3 — the claim loop -/

/-- Counting invariant of the claim loop: from any point on, at most `fuel`
further GETs are issued; when entered at a later attempt every GET is preceded
by a sleep, and when entered at attempt 0 every GET but the first is. -/
theorem claimGo_counts (env : Nat → FetchOutcome) (base : String) :
    ∀ fuel attempt,
      (claimGo env base fuel attempt).2.1 ≤ fuel
      ∧ (attempt ≠ 0 →
          (claimGo env base fuel attempt).2.2 = (claimGo env base fuel attempt).2.1)
      ∧ (attempt = 0 → fuel ≠ 0 →
          (claimGo env base fuel attempt).2.2 + 1 = (claimGo env base fuel attempt).2.1) := by
  intro fuel
  induction fuel with
  | zero => intro attempt; simp [claimGo]
  | succ n ih =>
    intro attempt
    obtain ⟨ih1, ih2, _⟩ := ih (attempt + 1)
    have ih2' := ih2 (Nat.succ_ne_zero attempt)
    simp only [claimGo]
    cases env attempt with
    | httpNotOk =>
      dsimp only
      refine ⟨by omega, fun ha => ?_, fun ha _ => ?_⟩
      · simp only [if_neg ha]; omega
      · simp only [if_pos ha]; omega
    | okBody d =>
      dsimp only
      by_cases hst : d.session.status = 2 ∨ d.session.status = 3
      · rw [if_pos hst]
        cases resolveSignaling d with
        | ok sig =>
          dsimp only
          refine ⟨by omega, fun ha => by simp [if_neg ha], fun ha _ => by simp [if_pos ha]⟩
        | error e =>
          dsimp only
          refine ⟨by omega, fun ha => by simp [if_neg ha], fun ha _ => by simp [if_pos ha]⟩
      · rw [if_neg hst]
        by_cases h6 : d.session.status = 6
        · rw [if_pos h6]
          dsimp only
          refine ⟨by omega, fun ha => ?_, fun ha _ => ?_⟩
          · simp only [if_neg ha]; omega
          · simp only [if_pos ha]; omega
        · rw [if_neg h6]
          dsimp only
          refine ⟨by omega, fun ha => by simp [if_neg ha], fun ha _ => by simp [if_pos ha]⟩

/-- When every attempt in the remaining window is swallowed (non-2xx) or
queued (status 6), the loop runs out of fuel and raises, having issued one GET
per iteration and slept before each iteration except a first one at
attempt 0. -/
theorem claimGo_exhaust (env : Nat → FetchOutcome) (base : String) :
    ∀ fuel attempt,
      (∀ a, attempt ≤ a → a < attempt + fuel →
        env a = .httpNotOk ∨ ∃ d, env a = .okBody d ∧ d.session.status = 6) →
      claimGo env base fuel attempt
        = (.exhausted, fuel, if attempt = 0 then fuel - 1 else fuel) := by
  intro fuel
  induction fuel with
  | zero => intro attempt _; simp [claimGo]
  | succ n ih =>
    intro attempt hwin
    have hrec : claimGo env base n (attempt + 1)
        = (.exhausted, n, if attempt + 1 = 0 then n - 1 else n) := by
      apply ih
      intro a ha1 ha2
      exact hwin a (by omega) (by omega)
    rw [if_neg (Nat.succ_ne_zero attempt)] at hrec
    have hcur := hwin attempt (Nat.le_refl attempt) (by omega)
    rcases hcur with hcur | ⟨d, hd, h6⟩
    · simp only [claimGo, hcur]
      rw [hrec]
      by_cases ha : attempt = 0
      · simp [ha]
      · simp [ha]
    · simp only [claimGo, hd]
      have hst : ¬ (d.session.status = 2 ∨ d.session.status = 3) := by
        rw [h6]; intro h; rcases h with h | h <;> exact absurd h (by decide)
      rw [if_neg hst, if_pos h6]
      rw [hrec]
      by_cases ha : attempt = 0
      · simp [ha]
      · simp [ha]

/-- Claim C3: `claimSession` performs at most 15 GETs with a 2-second sleep
before every attempt except the first (hence at most 14 sleeps and exactly one
fewer sleep than GETs); a non-2xx response is swallowed and the loop continues
at the next attempt; an attempt with status 2 or 3 returns immediately after
one GET, propagating a `resolveSignaling` failure; an attempt with a status
that is neither ready (2/3) nor queued (6) breaks the loop and the call
raises; and if all 15 attempts are swallowed or queued the call raises after
15 GETs and 14 sleeps. -/
theorem C3_claimSession (env : Nat → FetchOutcome) (base : String) :
    (claimSessionWeb env base).2.1 ≤ 15
  ∧ (claimSessionWeb env base).2.2 + 1 = (claimSessionWeb env base).2.1
  ∧ (claimSessionWeb env base).2.2 ≤ 14
  ∧ (∀ n attempt, env attempt = .httpNotOk →
      claimGo env base (n + 1) attempt
        = ((claimGo env base n (attempt + 1)).1,
           (claimGo env base n (attempt + 1)).2.1 + 1,
           (claimGo env base n (attempt + 1)).2.2 + (if attempt = 0 then 0 else 1)))
  ∧ (∀ n attempt d, env attempt = .okBody d →
      (d.session.status = 2 ∨ d.session.status = 3) →
      claimGo env base (n + 1) attempt
        = ((match resolveSignaling d with
            | .ok sig => ClaimResult.success (claimSuccessInfo base d sig)
            | .error e => ClaimResult.resolutionError e),
           1, if attempt = 0 then 0 else 1))
  ∧ (∀ n attempt d, env attempt = .okBody d →
      ¬ (d.session.status = 2 ∨ d.session.status = 3) → d.session.status ≠ 6 →
      claimGo env base (n + 1) attempt = (.exhausted, 1, if attempt = 0 then 0 else 1))
  ∧ ((∀ a, a < 15 →
        env a = .httpNotOk ∨ ∃ d, env a = .okBody d ∧ d.session.status = 6) →
      claimSessionWeb env base = (.exhausted, 15, 14)) := by
  simp only [claimSessionWeb]
  obtain ⟨h1, _, h3⟩ := claimGo_counts env base 15 0
  have h3' := h3 rfl (by omega)
  refine ⟨h1, h3', by omega, ?_, ?_, ?_, ?_⟩
  · intro n attempt henv
    simp only [claimGo, henv]
  · intro n attempt d henv hst
    simp only [claimGo, henv]
    rw [if_pos hst]
    cases resolveSignaling d <;> rfl
  · intro n attempt d henv hst h6
    simp only [claimGo, henv]
    rw [if_neg hst, if_neg h6]
  · intro hwin
    have := claimGo_exhaust env base 15 0 (fun a _ h2 => hwin a (by omega))
    simpa [claimSessionWeb] using this

/-- Claim C3 witness: an environment in which every GET yields a non-2xx
response exhausts the loop with 15 GETs and 14 sleeps and raises. -/
theorem C3_claimSession_witness :
    claimSessionWeb (fun _ => FetchOutcome.httpNotOk) "b" = (.exhausted, 15, 14) :=
  (C3_claimSession (fun _ => FetchOutcome.httpNotOk) "b").2.2.2.2.2.2
    (fun _ _ => Or.inl rfl)

/-! ### Claim C1 — single-flight refresh -/

/-- While a refresh operation `p` is pending, any number of further
`lockedRefresh` calls return `p` and leave the lock state (in particular the
list of started network operations) unchanged. -/
theorem lockedRefreshCalls_pending (n : Nat) (s : RefreshLockState) (p : Nat)
    (h : s.refreshLock = some p) :
    lockedRefreshCalls n s = (List.replicate n p, s) := by
  induction n with
  | zero => simp [lockedRefreshCalls]
  | succ m ih =>
    simp only [lockedRefreshCalls, lockedRefreshStep, h]
    rw [ih]
    simp [List.replicate]

/-- Claim C1: when `N` callers of `ensureValidSessionWithStatus` /
`handleApiError` reach `lockedRefresh` while a refresh is pending, all of them
receive the pending operation and no new network refresh is started; and when
the burst itself begins the refresh, exactly one network operation is started
and every caller of the burst receives that same operation. -/
theorem C1_lockedRefresh_single_flight (n : Nat) (s : RefreshLockState) :
    (∀ p, s.refreshLock = some p →
      lockedRefreshCalls n s = (List.replicate n p, s))
  ∧ (s.refreshLock = none →
      lockedRefreshCalls (n + 1) s
        = (List.replicate (n + 1) s.nextOpId,
           ⟨some s.nextOpId, s.nextOpId + 1, s.started ++ [s.nextOpId]⟩)) := by
  constructor
  · intro p h
    exact lockedRefreshCalls_pending n s p h
  · intro h
    simp only [lockedRefreshCalls, lockedRefreshStep, h]
    rw [lockedRefreshCalls_pending n _ s.nextOpId rfl]
    simp [List.replicate]

/-- Claim C1 witness: three callers during a pending operation `7` all get
`7` with nothing new started; three callers from the idle state share one
freshly started operation `0`. -/
theorem C1_lockedRefresh_single_flight_witness :
    lockedRefreshCalls 3 ⟨some 7, 8, [7]⟩ = ([7, 7, 7], ⟨some 7, 8, [7]⟩)
  ∧ lockedRefreshCalls 3 ⟨none, 0, []⟩ = ([0, 0, 0], ⟨some 0, 1, [0]⟩) := by
  constructor
  · exact (C1_lockedRefresh_single_flight 3 ⟨some 7, 8, [7]⟩).1 7 rfl
  · exact (C1_lockedRefresh_single_flight 2 ⟨none, 0, []⟩).2 rfl

/-! ### Claim C2 — the ensure-valid-session decision table -/

/-- Concrete session for the C2 counterexample: the token expires exactly
10 minutes after `now = 0` and a refresh token is available. -/
def c2BoundarySession : AuthSession :=
  { provider := "NVIDIA"
    tokens := { accessToken := "at", refreshToken := some "rt", idToken := none,
                expiresAt := 600000 }
    user := { userId := "u", displayName := "User", membershipTier := "FREE" } }

/-- Claim C2 counterexample.  At `now = 0` with `expiresAt = 600000` the
expiry is *not* more than 10 minutes away, a session is cached and it carries
a refresh token, so the claim's only applicable row is "in every other case it
performs a locked refresh"; the code instead returns the cached session
unchanged with outcome `not_attempted` and never enters `lockedRefresh`
(`shouldRefresh` uses a strict `<`). -/
theorem C2_counterexample :
    ¬ (c2BoundarySession.tokens.expiresAt - 0 > 10 * 60 * 1000)
  ∧ c2BoundarySession.tokens.refreshToken = some "rt"
  ∧ ensureValidSessionWithStatus false 0 (some c2BoundarySession)
      ⟨.failure "down", .failure "down"⟩ (Except.error "unused") none
      = ⟨some c2BoundarySession, false, false, .not_attempted, false⟩ := by
  decide

/-- Claim C2 (amended): `ensureValidSessionWithStatus(forceRefresh)` follows
the decision table with the boundary read as *at least* 10 minutes: no cached
session → null session, `not_attempted`; not forced and expiry at least
10 minutes away → cached session unchanged, `not_attempted`; otherwise no
refresh token (absent, or empty — the source's guard is the JS-falsy
`!tokens.refreshToken`) → cached session unchanged, `missing_refresh_token`;
in every other case a locked refresh is performed. -/
theorem C2_amended (force : Bool) (now : Int) (sOpt : Option AuthSession)
    (env : GrantEnv) (userEnv : Except String AuthUser) (tierEnv : Option String) :
    (sOpt = none →
      ensureValidSessionWithStatus force now sOpt env userEnv tierEnv
        = ⟨none, false, force, .not_attempted, false⟩)
  ∧ (∀ s, sOpt = some s → force = false →
      s.tokens.expiresAt - now ≥ 10 * 60 * 1000 →
      ensureValidSessionWithStatus force now sOpt env userEnv tierEnv
        = ⟨some s, false, false, .not_attempted, false⟩)
  ∧ (∀ s, sOpt = some s →
      (force = true ∨ s.tokens.expiresAt - now < 10 * 60 * 1000) →
      (s.tokens.refreshToken = none ∨ s.tokens.refreshToken = some "") →
      ensureValidSessionWithStatus force now sOpt env userEnv tierEnv
        = ⟨some s, true, force, .missing_refresh_token, false⟩)
  ∧ (∀ s rt, sOpt = some s →
      (force = true ∨ s.tokens.expiresAt - now < 10 * 60 * 1000) →
      s.tokens.refreshToken = some rt → rt ≠ "" →
      (ensureValidSessionWithStatus force now sOpt env userEnv tierEnv).didLockedRefresh
        = true) := by
  refine ⟨?_, ?_, ?_, ?_⟩
  · intro h
    subst h
    rfl
  · intro s hs hforce hge
    subst hs
    have hcond : ¬ force = true ∧ ¬ shouldRefresh now s.tokens = true := by
      constructor
      · simp [hforce]
      · simp only [shouldRefresh, decide_eq_true_eq]
        omega
    simp only [ensureValidSessionWithStatus]
    rw [if_pos hcond]
  · intro s hs hrefresh hmissing
    subst hs
    have hcond : ¬ (¬ force = true ∧ ¬ shouldRefresh now s.tokens = true) := by
      rcases hrefresh with h | h
      · simp [h]
      · intro hc
        apply hc.2
        simp only [shouldRefresh, decide_eq_true_eq]
        omega
    simp only [ensureValidSessionWithStatus]
    rw [if_neg hcond]
    rcases hmissing with hmissing | hmissing
    · rw [hmissing]
    · rw [hmissing]
      dsimp only
      rw [if_pos rfl]
  · intro s rt hs hrefresh hsome hrtne
    subst hs
    have hcond : ¬ (¬ force = true ∧ ¬ shouldRefresh now s.tokens = true) := by
      rcases hrefresh with h | h
      · simp [h]
      · intro hc
        apply hc.2
        simp only [shouldRefresh, decide_eq_true_eq]
        omega
    simp only [ensureValidSessionWithStatus]
    rw [if_neg hcond, hsome]
    dsimp only
    rw [if_neg hrtne]
    cases (performTokenRefresh now (some rt) env).1 with
    | none => rfl
    | some newTokens =>
      cases userEnv with
      | error e => rfl
      | ok user => cases tierEnv <;> rfl

/-- Claim C2 amended-theorem witness: the four rows of the amended table on
concrete inputs, including the 10-minute boundary in the cached-return row and
the JS-falsy empty refresh token in the `missing_refresh_token` row. -/
theorem C2_amended_witness :
    ensureValidSessionWithStatus false 0 none
      ⟨.failure "down", .failure "down"⟩ (Except.error "unused") none
      = ⟨none, false, false, .not_attempted, false⟩
  ∧ ensureValidSessionWithStatus false 0 (some c2BoundarySession)
      ⟨.failure "down", .failure "down"⟩ (Except.error "unused") none
      = ⟨some c2BoundarySession, false, false, .not_attempted, false⟩
  ∧ ensureValidSessionWithStatus true 0
      (some { c2BoundarySession with
              tokens := { c2BoundarySession.tokens with refreshToken := none } })
      ⟨.failure "down", .failure "down"⟩ (Except.error "unused") none
      = ⟨some { c2BoundarySession with
                tokens := { c2BoundarySession.tokens with refreshToken := none } },
         true, true, .missing_refresh_token, false⟩
  ∧ ensureValidSessionWithStatus true 0
      (some { c2BoundarySession with
              tokens := { c2BoundarySession.tokens with refreshToken := some "" } })
      ⟨.failure "down", .failure "down"⟩ (Except.error "unused") none
      = ⟨some { c2BoundarySession with
                tokens := { c2BoundarySession.tokens with refreshToken := some "" } },
         true, true, .missing_refresh_token, false⟩
  ∧ (ensureValidSessionWithStatus true 0 (some c2BoundarySession)
      ⟨.failure "down", .failure "down"⟩ (Except.error "unused") none).didLockedRefresh
      = true := by
  refine ⟨?_, ?_, ?_, ?_, ?_⟩
  · exact (C2_amended false 0 none ⟨.failure "down", .failure "down"⟩
      (Except.error "unused") none).1 rfl
  · exact (C2_amended false 0 (some c2BoundarySession) ⟨.failure "down", .failure "down"⟩
      (Except.error "unused") none).2.1 c2BoundarySession rfl rfl (by decide)
  · exact (C2_amended true 0 _ ⟨.failure "down", .failure "down"⟩
      (Except.error "unused") none).2.2.1 _ rfl (Or.inl rfl) (Or.inl rfl)
  · exact (C2_amended true 0 _ ⟨.failure "down", .failure "down"⟩
      (Except.error "unused") none).2.2.1 _ rfl (Or.inl rfl) (Or.inr rfl)
  · exact (C2_amended true 0 (some c2BoundarySession) ⟨.failure "down", .failure "down"⟩
      (Except.error "unused") none).2.2.2 c2BoundarySession "rt" rfl (Or.inl rfl) rfl
      (by decide)

/-! ### Claim C6 — refresh grant order and failure retention -/

/-- Claim C6: with a usable (non-empty, as the source's guard is the JS-falsy
`!this.session?.tokens.refreshToken`) refresh token, a refresh attempt issues
the primary `refresh_token` grant first; the secondary token-exchange grant is
issued only when the primary fails, with the same refresh token; when both
grants fail, `ensureValidSessionWithStatus` keeps the cached session unchanged
and reports outcome `failed`; and without a usable refresh token no grant is
issued at all. -/
theorem C6_refresh_fallback (now : Int) (rt : String) (env : GrantEnv)
    (s : AuthSession) (force : Bool) (userEnv : Except String AuthUser)
    (tierEnv : Option String) (hrtne : rt ≠ "") :
    (∀ t, refreshAuthTokens now rt env.primary = Except.ok t →
      performTokenRefresh now (some rt) env = (some t, [(.refreshTokenGrant, rt)]))
  ∧ (∀ e, refreshAuthTokens now rt env.primary = Except.error e →
      (performTokenRefresh now (some rt) env).2
          = [(.refreshTokenGrant, rt), (.tokenExchangeGrant, rt)]
      ∧ (∀ t2, refreshViaClientToken now rt env.secondary = Except.ok t2 →
          (performTokenRefresh now (some rt) env).1 = some t2)
      ∧ (∀ e2, refreshViaClientToken now rt env.secondary = Except.error e2 →
          (performTokenRefresh now (some rt) env).1 = none))
  ∧ ((performTokenRefresh now (some rt) env).1 = none →
      s.tokens.refreshToken = some rt →
      (force = true ∨ shouldRefresh now s.tokens = true) →
      ensureValidSessionWithStatus force now (some s) env userEnv tierEnv
        = ⟨some s, true, force, .failed, true⟩)
  ∧ performTokenRefresh now none env = (none, [])
  ∧ performTokenRefresh now (some "") env = (none, []) := by
  refine ⟨?_, ?_, ?_, rfl, rfl⟩
  · intro t ht
    simp only [performTokenRefresh]
    rw [if_neg hrtne, ht]
  · intro e he
    refine ⟨?_, ?_, ?_⟩
    · simp only [performTokenRefresh]
      rw [if_neg hrtne, he]
      cases refreshViaClientToken now rt env.secondary <;> rfl
    · intro t2 ht2
      simp only [performTokenRefresh]
      rw [if_neg hrtne, he, ht2]
    · intro e2 he2
      simp only [performTokenRefresh]
      rw [if_neg hrtne, he, he2]
  · intro hnone hrt hneed
    have hcond : ¬ (¬ force = true ∧ ¬ shouldRefresh now s.tokens = true) := by
      rcases hneed with h | h
      · simp [h]
      · simp [h]
    simp only [ensureValidSessionWithStatus]
    rw [if_neg hcond, hrt]
    dsimp only
    rw [if_neg hrtne, hnone]

/-- Failing token-endpoint environment for the C6 witness. -/
def c6DownEnv : GrantEnv := ⟨.failure "503", .failure "503"⟩

/-- Claim C6 witness: with both grants failing, the attempt records both
grants in order with the same refresh token, yields no tokens, and the
ensure call keeps the stale session with outcome `failed`. -/
theorem C6_refresh_fallback_witness :
    performTokenRefresh 0 (some "rt") c6DownEnv
      = (none, [(.refreshTokenGrant, "rt"), (.tokenExchangeGrant, "rt")])
  ∧ ensureValidSessionWithStatus true 0 (some c2BoundarySession) c6DownEnv
      (Except.error "unused") none
      = ⟨some c2BoundarySession, true, true, .failed, true⟩ := by
  have h := C6_refresh_fallback 0 "rt" c6DownEnv c2BoundarySession true
    (Except.error "unused") none (by decide)
  have h2 := h.2.1 "Token refresh failed: 503" rfl
  refine ⟨?_, ?_⟩
  · have ha := h2.1
    have hb := h2.2.2 "client_token refresh failed: 503" rfl
    have : performTokenRefresh 0 (some "rt") c6DownEnv
        = ((performTokenRefresh 0 (some "rt") c6DownEnv).1,
           (performTokenRefresh 0 (some "rt") c6DownEnv).2) := rfl
    rw [this, ha, hb]
  · exact h.2.2.1 (h2.2.2 "client_token refresh failed: 503" rfl) rfl (Or.inl rfl)

/-! ### Claim C7 — expiresAt strictly increases across a refresh -/

/-- Claim C7: every token set constructed from a token-endpoint response gets
`expiresAt = now + (expires_in ?? 86400) * 1000`; consequently, a successful
refresh whose response carries the same `expires_in` as the response that
produced the replaced token set, performed at a strictly later time, yields a
strictly larger `expiresAt`. -/
theorem C7_expiresAt_increases (t0 t1 : Int) (rt0 rt1 : String)
    (p0 p1 : TokenResponse) (old new : AuthTokens)
    (hOld : refreshAuthTokens t0 rt0 (.success p0) = Except.ok old
          ∨ refreshViaClientToken t0 rt0 (.success p0) = Except.ok old
          ∨ exchangeAuthorizationCode t0 (.success p0) = Except.ok old)
    (hNew : refreshAuthTokens t1 rt1 (.success p1) = Except.ok new
          ∨ refreshViaClientToken t1 rt1 (.success p1) = Except.ok new)
    (hSame : p1.expires_in = p0.expires_in)
    (hAdv : t0 < t1) :
    old.expiresAt = t0 + (p0.expires_in.getD 86400) * 1000
    ∧ new.expiresAt = t1 + (p1.expires_in.getD 86400) * 1000
    ∧ old.expiresAt < new.expiresAt := by
  have hOldE : old.expiresAt = t0 + (p0.expires_in.getD 86400) * 1000 := by
    rcases hOld with h | h | h
    · unfold refreshAuthTokens at h
      dsimp only at h
      by_cases hA : p0.access_token = ""
      · rw [if_pos hA] at h; exact absurd h (by simp)
      · rw [if_neg hA] at h
        simp only [Except.ok.injEq] at h
        rw [← h]
    · unfold refreshViaClientToken at h
      dsimp only at h
      by_cases hA : p0.access_token = ""
      · rw [if_pos hA] at h; exact absurd h (by simp)
      · rw [if_neg hA] at h
        simp only [Except.ok.injEq] at h
        rw [← h]
    · unfold exchangeAuthorizationCode at h
      dsimp only at h
      simp only [Except.ok.injEq] at h
      rw [← h]
  have hNewE : new.expiresAt = t1 + (p1.expires_in.getD 86400) * 1000 := by
    rcases hNew with h | h
    · unfold refreshAuthTokens at h
      dsimp only at h
      by_cases hA : p1.access_token = ""
      · rw [if_pos hA] at h; exact absurd h (by simp)
      · rw [if_neg hA] at h
        simp only [Except.ok.injEq] at h
        rw [← h]
    · unfold refreshViaClientToken at h
      dsimp only at h
      by_cases hA : p1.access_token = ""
      · rw [if_pos hA] at h; exact absurd h (by simp)
      · rw [if_neg hA] at h
        simp only [Except.ok.injEq] at h
        rw [← h]
  refine ⟨hOldE, hNewE, ?_⟩
  rw [hOldE, hNewE, hSame]
  omega

/-- Claim C7 witness: a refresh at time 0 and a refresh at time 1000, both
with `expires_in = 3600`, give strictly increasing `expiresAt`. -/
theorem C7_expiresAt_increases_witness :
    refreshAuthTokens 0 "r" (.success ⟨"a", none, none, some 3600⟩)
      = Except.ok ⟨"a", some "r", none, 3600000⟩
  ∧ refreshAuthTokens 1000 "r" (.success ⟨"a", none, none, some 3600⟩)
      = Except.ok ⟨"a", some "r", none, 3601000⟩
  ∧ (AuthTokens.mk "a" (some "r") none 3600000).expiresAt
      < (AuthTokens.mk "a" (some "r") none 3601000).expiresAt := by
  refine ⟨by decide, by decide, ?_⟩
  exact (C7_expiresAt_increases 0 1000 "r" "r"
    ⟨"a", none, none, some 3600⟩ ⟨"a", none, none, some 3600⟩
    ⟨"a", some "r", none, 3600000⟩ ⟨"a", some "r", none, 3601000⟩
    (Or.inl (by decide)) (Or.inl (by decide)) rfl (by decide)).2.2

/-! ### Claims C8 and C10 — acknowledgment of inbound frames -/

/-- The code after the acknowledgment block never writes an ack frame: its
only outbound frame is the heartbeat echo. -/
theorem handleMessageRest_no_acks (parsed : InSignalingMessage)
    (dec : String → Option PeerPayload) :
    (handleMessageRest parsed dec).1.filter isAckFrame = [] := by
  unfold handleMessageRest
  by_cases hb : hbTruthy parsed.hb = true
  · rw [if_pos hb]; rfl
  · rw [if_neg hb]
    cases parsed.peer_msg with
    | none => rfl
    | some pm =>
      dsimp only
      by_cases hm : pm.msg = ""
      · rw [if_pos hm]; rfl
      · rw [if_neg hm]
        cases dec pm.msg with
        | none => rfl
        | some p =>
          dsimp only
          rcases p.msgType with _ | t <;> rcases hsdp : p.sdp with _ | sdp <;>
            rcases p.candidate with _ | c <;>
            first
              | rfl
              | (dsimp only; split <;> rfl)

/-- Claim C8: an inbound frame with a numeric `ackid` whose embedded peer id
differs from the client's own id triggers exactly one outbound ack frame,
and it references that `ackid`; a frame whose embedded peer id equals the
client's own id triggers none. -/
theorem C8_ack_on_foreign_peer (peerId : Int) (msg : InSignalingMessage)
    (dec : String → Option PeerPayload) (n : Int) (pInfo : PeerInfo)
    (hack : msg.ackid = some n) (hpi : msg.peer_info = some pInfo) :
    (pInfo.id ≠ peerId →
      (handleMessage peerId (some msg) dec).1.filter isAckFrame = [.ackFrame n])
  ∧ (pInfo.id = peerId →
      (handleMessage peerId (some msg) dec).1.filter isAckFrame = []) := by
  constructor
  · intro hne
    have hcond : msg.peer_info.map (·.id) ≠ some peerId := by
      rw [hpi]
      simpa using hne
    simp only [handleMessage, hack]
    rw [if_pos hcond]
    rw [List.filter_append, handleMessageRest_no_acks]
    rfl
  · intro heq
    have hcond : ¬ msg.peer_info.map (·.id) ≠ some peerId := by
      rw [hpi]
      simp [heq]
    simp only [handleMessage, hack]
    rw [if_neg hcond]
    rw [List.filter_append, handleMessageRest_no_acks]
    rfl

/-- Claim C8 witness: a heartbeat frame with `ackid = 5` from peer 1 is acked
exactly once while the same frame from the client's own peer id 2 is not. -/
theorem C8_ack_on_foreign_peer_witness :
    (handleMessage 2 (some ⟨some 5, none, some 1, some ⟨1⟩, none⟩) (fun _ => none)).1.filter
        isAckFrame = [.ackFrame 5]
  ∧ (handleMessage 2 (some ⟨some 5, none, some 1, some ⟨2⟩, none⟩) (fun _ => none)).1.filter
        isAckFrame = [] := by
  constructor
  · exact (C8_ack_on_foreign_peer 2 ⟨some 5, none, some 1, some ⟨1⟩, none⟩ (fun _ => none)
      5 ⟨1⟩ rfl rfl).1 (by decide)
  · exact (C8_ack_on_foreign_peer 2 ⟨some 5, none, some 1, some ⟨2⟩, none⟩ (fun _ => none)
      5 ⟨2⟩ rfl rfl).2 rfl

/-- Claim C10: a frame with a numeric `ackid` but no `peer_info` field at all
is acked exactly once — `parsed.peer_info?.id` is `undefined`, which compares
unequal to the client's own peer id. -/
theorem C10_ack_when_peer_info_absent (peerId : Int) (msg : InSignalingMessage)
    (dec : String → Option PeerPayload) (n : Int)
    (hack : msg.ackid = some n) (hpi : msg.peer_info = none) :
    (handleMessage peerId (some msg) dec).1.filter isAckFrame = [.ackFrame n] := by
  have hcond : msg.peer_info.map (·.id) ≠ some peerId := by
    rw [hpi]
    simp
  simp only [handleMessage, hack]
  rw [if_pos hcond]
  rw [List.filter_append, handleMessageRest_no_acks]
  rfl

/-- Claim C10 witness: a relayed frame with `ackid = 9` and no `peer_info` is
acked once. -/
theorem C10_ack_when_peer_info_absent_witness :
    (handleMessage 2 (some ⟨some 9, none, none, none, some ⟨1, 2, "x"⟩⟩)
        (fun _ => none)).1.filter isAckFrame = [.ackFrame 9] :=
  C10_ack_when_peer_info_absent 2 ⟨some 9, none, none, none, some ⟨1, 2, "x"⟩⟩
    (fun _ => none) 9 rfl rfl

/-! ### Claim C9 — active-session listing error behaviour -/

/-- Claim C9 counterexample.  The claim says *any* failure during the GET
(non-2xx response or any other error) yields an empty list instead of a
thrown error.  `getActiveSessionsWeb` has no `try`/`catch`, so a rejected
`fetch` — a network failure — propagates as an error instead of returning
`[]`. -/
theorem C9_counterexample :
    getActiveSessionsWeb (.netError "connection reset")
      = Except.error "connection reset"
  ∧ getActiveSessionsWeb (.netError "connection reset")
      ≠ Except.ok ([] : List ActiveSessionInfo) := by
  decide

/-- Claim C9 (amended): a received non-2xx HTTP response yields an empty list
without throwing, but errors thrown by the network request itself or by body
parsing propagate to the caller. -/
theorem C9_amended (e : String) (body : Option GetSessionsResponse) :
    getActiveSessionsWeb (.resp false body) = Except.ok []
  ∧ getActiveSessionsWeb (.netError e) = Except.error e
  ∧ getActiveSessionsWeb (.resp true none)
      = Except.error "response.json() failed" := by
  exact ⟨rfl, rfl, rfl⟩

end OpenCloud
